import Mathlib

/-!
Verification of the endpoint-0 control-transfer engine of the tock-hotel
USB device driver (src/hotel/src/usb/mod.rs), shallowly embedded in Lean.

The driver's submodules `constants`, `registers`, `serialize` and `types`
are not part of the sources; the definitions taken from them are marked
`Modelled from the spec:` in their doc comments.  Everything else is a
direct translation of `mod.rs`.
-/

set_option maxRecDepth 4000

/-- The three states of the USB driver state machine (`USBState` in mod.rs). -/
inductive USBState
  | WaitingForSetupPacket
  | DataStageIn
  | NoDataStage
deriving DecidableEq, Repr

/-- The five table cases of the OTG Programming Guide (`TableCase` in mod.rs). -/
inductive TableCase
  | A
  | B
  | C
  | D
  | E
deriving DecidableEq, Repr

/-- Modelled from the spec: the 4-state buffer-status lattice of a DMA
descriptor's flag word (the numeric encoding lives in the missing
`registers` module; the zero value is taken to be HOST_READY as in the
DesignWare convention). -/
inductive DescStatus
  | HOST_READY
  | DMA_BUSY
  | DMA_DONE
  | HOST_BUSY
deriving DecidableEq, Repr

/-- Modelled from the spec: a DMA descriptor flag word, unpacked into its
fields (status lattice, LAST, SHORT, IOC, SETUP_READY and the 16-bit byte
count combined in by `flags.bytes(n)`). -/
structure DescFlag where
  status : DescStatus := .HOST_BUSY
  last : Bool := false
  shortFlag : Bool := false
  ioc : Bool := false
  setupReady : Bool := false
  byteCount : Nat := 0
deriving DecidableEq, Repr

instance : Inhabited DescFlag := ⟨{}⟩

/-- The `.bytes(n)` combinator on descriptor flag words. -/
def DescFlag.bytes (f : DescFlag) (n : Nat) : DescFlag :=
  { f with byteCount := n }

/-- Flag word `HOST_READY | LAST | IOC` used to arm OUT descriptors. -/
def flagHostReadyLastIoc : DescFlag :=
  { status := .HOST_READY, last := true, ioc := true }

/-- Flag word `HOST_READY | LAST | SHORT | IOC` used to arm IN descriptors. -/
def flagHostReadyLastShortIoc : DescFlag :=
  { status := .HOST_READY, last := true, shortFlag := true, ioc := true }

/-- Flag word `LAST | IOC` written by `stall_both_fifos` (no status bits set;
the zero status value is modelled as HOST_READY). -/
def flagLastIoc : DescFlag :=
  { status := .HOST_READY, last := true, ioc := true }

/-- Flag word `HOST_BUSY` written by `init_descriptors`. -/
def flagHostBusy : DescFlag := { status := .HOST_BUSY }

/-- Modelled from the spec: an endpoint-control register value (missing
`registers` module), with the ENABLE, CNAK and STALL bits as fields. -/
structure EpCtl where
  enable : Bool := false
  cnak : Bool := false
  stall : Bool := false
deriving DecidableEq, Repr

/-- Endpoint control value `EpCtl::ENABLE`. -/
def epCtlEnable : EpCtl := { enable := true }

/-- Endpoint control value `EpCtl::ENABLE | EpCtl::CNAK`. -/
def epCtlEnableCnak : EpCtl := { enable := true, cnak := true }

/-- Endpoint control value `EpCtl::ENABLE | EpCtl::STALL`. -/
def epCtlEnableStall : EpCtl := { enable := true, stall := true }

/-- A single MMIO register write performed by the driver, recorded in the
order in which the code performs them. -/
inductive RegWrite
  | outEp0Interrupt (v : Nat)
  | inEp0Interrupt (v : Nat)
  | outEp0Control (v : EpCtl)
  | inEp0Control (v : EpCtl)
  | outEp0DmaAddr (descIdx : Nat)
  | inEp0DmaAddr (descIdx : Nat)
  | deviceConfigWrite (v : Nat)
  | allEpIntMaskWrite (v : Nat)
  | txFifoFlush (fifo : Nat)
deriving DecidableEq, Repr

/-- Modelled from the spec: `OutInterruptMask::XferComplMsk` (bit 0 of the
OUT endpoint interrupt register; corroborated by the unmask comment in
`init`). -/
def XferComplMsk : Nat := 1

/-- Modelled from the spec: `OutInterruptMask::SetUPMsk` (bit 3; corroborated
by the unmask comment in `init`). -/
def SetUPMsk : Nat := 8

/-- Modelled from the spec: `OutInterruptMask::StsPhseRcvdMsk` (bit 5 of the
OUT endpoint interrupt register). -/
def StsPhseRcvdMsk : Nat := 32

/-- Modelled from the spec: `InInterruptMask::XferComplMsk` (bit 0 of the IN
endpoint interrupt register). -/
def InXferComplMsk : Nat := 1

/-- `AllEndpointInterruptMask::IN0` (bit 0 of DAINT, from the src test
`daint & 1 != 0`). -/
def AllEpIN0 : Nat := 1

/-- `AllEndpointInterruptMask::OUT0` (bit 16 of DAINT, from the src test
`daint & 1 << 16 != 0`). -/
def AllEpOUT0 : Nat := 65536

/-- The 32-bit complement of `AllEndpointInterruptMask::IN0`, used when the
driver masks IN-0 interrupts with `interrupts &= !(IN0)`. -/
def AllEpIN0Complement : Nat := 0xFFFFFFFE

/-- `TableCase::decode_interrupt` translated from mod.rs: classify an OUT
endpoint-0 interrupt word by its XferCompl, SetUP and StsPhseRcvd bits. -/
def decode_interrupt (w : Nat) : TableCase :=
  if w &&& XferComplMsk ≠ 0 then
    if w &&& SetUPMsk ≠ 0 then
      TableCase.C
    else if w &&& StsPhseRcvdMsk ≠ 0 then
      TableCase.E
    else
      TableCase.A
  else
    if w &&& SetUPMsk ≠ 0 then
      TableCase.B
    else
      TableCase.D

/-- The (XferCompl, SetUP, StsPhseRcvd) bit readings of an interrupt word. -/
def intBits (w : Nat) : Bool × Bool × Bool :=
  (decide (w &&& XferComplMsk ≠ 0),
   decide (w &&& SetUPMsk ≠ 0),
   decide (w &&& StsPhseRcvdMsk ≠ 0))

/-- The documented (XferCompl, SetUP, StsPhseRcvd) bit combination of each
table case, per the Programming Guide table reproduced in mod.rs. -/
def TableCase.bitsPattern : TableCase → Bool × Bool × Bool
  | .A => (true, false, false)
  | .B => (false, true, false)
  | .C => (true, true, false)
  | .D => (false, false, true)
  | .E => (true, false, true)

/-- Modelled from the spec: the direction bit of `bmRequestType`
(missing `types` module). -/
inductive SetupDirection
  | HostToDevice
  | DeviceToHost
deriving DecidableEq, Repr

/-- Modelled from the spec: the type field (bits 6:5) of `bmRequestType`
(missing `types` module). -/
inductive SetupRequestClass
  | Standard
  | Class
  | Vendor
  | Reserved
deriving DecidableEq, Repr

/-- Modelled from the spec: the recipient field (bits 4:0) of
`bmRequestType` (missing `types` module). -/
inductive SetupRecipient
  | Device
  | Interface
  | Endpoint
  | Other
  | Reserved
deriving DecidableEq, Repr

/-- Modelled from the spec: the standard `bRequest` codes the driver
recognizes (GET_STATUS 0, SET_ADDRESS 5, GET_DESCRIPTOR 6,
GET_CONFIGURATION 8, SET_CONFIGURATION 9; missing `types` module). -/
inductive SetupRequestType
  | GetStatus
  | SetAddress
  | GetDescriptor
  | GetConfiguration
  | SetConfiguration
  | Unknown
deriving DecidableEq, Repr

/-- Modelled from the spec: the class `bRequest` codes the driver
recognizes on an interface recipient (SET_IDLE, HID value 0x0A;
missing `types` module). -/
inductive SetupClassRequestType
  | SetIdle
  | Unknown
deriving DecidableEq, Repr

/-- Modelled from the spec: the 8-byte SETUP packet structure, with the
fields as the driver reads them (missing `types` module). -/
structure SetupRequest where
  bmRequestType : Nat
  b_request : Nat
  w_value : Nat
  w_index : Nat
  w_length : Nat
deriving DecidableEq, Repr

/-- Modelled from the spec: `SetupRequest::new` reading the 8 packet bytes
out of the first two little-endian 32-bit words of an OUT buffer. -/
def SetupRequest.ofWords (w0 w1 : Nat) : SetupRequest :=
  { bmRequestType := w0 &&& 0xff
    b_request := (w0 >>> 8) &&& 0xff
    w_value := (w0 >>> 16) &&& 0xffff
    w_index := w1 &&& 0xffff
    w_length := (w1 >>> 16) &&& 0xffff }

/-- Direction accessor on a SETUP request (bit 7 of `bmRequestType`). -/
def SetupRequest.data_direction (r : SetupRequest) : SetupDirection :=
  if r.bmRequestType &&& 0x80 ≠ 0 then .DeviceToHost else .HostToDevice

/-- Type accessor on a SETUP request (bits 6:5 of `bmRequestType`). -/
def SetupRequest.req_type (r : SetupRequest) : SetupRequestClass :=
  match (r.bmRequestType >>> 5) &&& 0x3 with
  | 0 => .Standard
  | 1 => .Class
  | 2 => .Vendor
  | _ => .Reserved

/-- Recipient accessor on a SETUP request (bits 4:0 of `bmRequestType`). -/
def SetupRequest.recipient (r : SetupRequest) : SetupRecipient :=
  match r.bmRequestType &&& 0x1f with
  | 0 => .Device
  | 1 => .Interface
  | 2 => .Endpoint
  | 3 => .Other
  | _ => .Reserved

/-- Standard request-code accessor on a SETUP request. -/
def SetupRequest.request (r : SetupRequest) : SetupRequestType :=
  match r.b_request with
  | 0 => .GetStatus
  | 5 => .SetAddress
  | 6 => .GetDescriptor
  | 8 => .GetConfiguration
  | 9 => .SetConfiguration
  | _ => .Unknown

/-- Class request-code accessor on a SETUP request. -/
def SetupRequest.class_request (r : SetupRequest) : SetupClassRequestType :=
  match r.b_request with
  | 10 => .SetIdle
  | _ => .Unknown

/-- The `value()` accessor of a SETUP request. -/
def SetupRequest.value (r : SetupRequest) : Nat := r.w_value

/-- The `length()` accessor of a SETUP request. -/
def SetupRequest.length (r : SetupRequest) : Nat := r.w_length

/-- Modelled from the spec: `GET_DESCRIPTOR_DEVICE` (wValue high byte 1,
missing `constants` module). -/
def GET_DESCRIPTOR_DEVICE : Nat := 1

/-- Modelled from the spec: `GET_DESCRIPTOR_CONFIGURATION` (2). -/
def GET_DESCRIPTOR_CONFIGURATION : Nat := 2

/-- Modelled from the spec: `GET_DESCRIPTOR_STRING` (3). -/
def GET_DESCRIPTOR_STRING : Nat := 3

/-- Modelled from the spec: `GET_DESCRIPTOR_INTERFACE` (4). -/
def GET_DESCRIPTOR_INTERFACE : Nat := 4

/-- Modelled from the spec: `GET_DESCRIPTOR_DEVICE_QUALIFIER` (6). -/
def GET_DESCRIPTOR_DEVICE_QUALIFIER : Nat := 6

/-- Modelled from the spec: the `Descriptor::Report` wValue high byte
(0x22). -/
def DESCRIPTOR_REPORT : Nat := 0x22

/-- Modelled from the spec: `MAX_PACKET_SIZE` for endpoint 0 (64 bytes). -/
def MAX_PACKET_SIZE : Nat := 64

/-- Modelled from the spec: string-table identifier `STRING_LANG`
(exact index values live in the missing `constants` module). -/
def STRING_LANG : Nat := 1

/-- Modelled from the spec: string-table identifier `STRING_VENDOR`. -/
def STRING_VENDOR : Nat := 2

/-- Modelled from the spec: string-table identifier `STRING_BOARD`. -/
def STRING_BOARD : Nat := 3

/-- Modelled from the spec: string-table identifier `STRING_PLATFORM`. -/
def STRING_PLATFORM : Nat := 4

/-- Modelled from the spec: string-table identifier `STRING_INTERFACE1`. -/
def STRING_INTERFACE1 : Nat := 5

/-- Modelled from the spec: string-table identifier `STRING_INTERFACE2`. -/
def STRING_INTERFACE2 : Nat := 6

/-- Modelled from the spec: the fixed `U2F_REPORT_DESCRIPTOR` byte literal
(missing `constants` module).  The exact bytes are not in the sources; this
is the standard 34-byte FIDO U2F HID report descriptor, representative of
any HID report descriptor (in particular its first byte, a usage-page tag,
is nonzero). -/
def U2F_REPORT_DESCRIPTOR : List Nat :=
  [0x06, 0xD0, 0xF1, 0x09, 0x01, 0xA1, 0x01, 0x09, 0x20, 0x15, 0x00,
   0x26, 0xFF, 0x00, 0x75, 0x08, 0x95, 0x40, 0x81, 0x02, 0x09, 0x21,
   0x15, 0x00, 0x26, 0xFF, 0x00, 0x75, 0x08, 0x95, 0x40, 0x91, 0x02,
   0xC0]

/-- The mutable driver state and the registers it reads and writes.  The
descriptor arrays hold only the flag words (the `addr` fields never change
after `init_descriptors` except for IN descriptor 0, kept separately).
Register writes are recorded newest-first in `writes`. -/
structure Machine where
  state : USBState
  nextOutIdx : Nat
  lastOutIdx : Nat
  outDescs : Nat → DescFlag
  inDescs : Nat → DescFlag
  inDesc0Addr : Nat
  inBuf : Nat → Nat
  outBufs : Nat → Nat → Nat
  strings : List (List Nat)
  configurationDescriptor : Nat → Nat
  deviceConfig : Nat
  allEpIntMask : Nat
  configurationCurrentValue : Nat
  configurationTotalLength : Nat
  deviceClass : Nat
  vendorId : Nat
  productId : Nat
  writes : List RegWrite

/-- Record one MMIO register write. -/
def Machine.logWrite (m : Machine) (w : RegWrite) : Machine :=
  { m with writes := w :: m.writes }

/-- The SETUP request currently sitting in the most recently completed OUT
buffer, as `handle_setup` reads it. -/
def currentSetup (m : Machine) : SetupRequest :=
  SetupRequest.ofWords (m.outBufs m.lastOutIdx 0) (m.outBufs m.lastOutIdx 1)

/-- Pack a byte list into little-endian 32-bit words (low-index byte in the
least significant position), the layout used by the IN-buffer serializers. -/
def packWordsLE : List Nat → List Nat
  | [] => []
  | [b0] => [b0]
  | [b0, b1] => [b0 ||| (b1 <<< 8)]
  | [b0, b1, b2] => [b0 ||| (b1 <<< 8) ||| (b2 <<< 16)]
  | b0 :: b1 :: b2 :: b3 :: rest =>
      (b0 ||| (b1 <<< 8) ||| (b2 <<< 16) ||| (b3 <<< 24)) :: packWordsLE rest

/-- Overwrite the leading words of a word buffer with the given list. -/
def writeWordsF (ws : List Nat) (buf : Nat → Nat) : Nat → Nat :=
  fun j => if j < ws.length then ws.getD j 0 else buf j

/-- Byte `i` of a word buffer under the little-endian packing used for
Device, Configuration and String descriptors. -/
def bufByteLE (buf : Nat → Nat) (i : Nat) : Nat :=
  (buf (i / 4) >>> (8 * (i % 4))) &&& 0xff

/-- Byte `i` of a word buffer under the big-endian-within-word packing the
spec documents for the HID Report descriptor (`buf[i/4] |= byte <<
((3 - i%4) * 8)`). -/
def bufByteBE (buf : Nat → Nat) (i : Nat) : Nat :=
  (buf (i / 4) >>> (8 * (3 - i % 4))) &&& 0xff

/-- The wire-format Device Descriptor record (`DeviceDescriptor` in the
missing `types` module; field list as in `generate_device_descriptor`). -/
structure DeviceDescriptor where
  b_length : Nat
  b_descriptor_type : Nat
  bcd_usb : Nat
  b_device_class : Nat
  b_device_sub_class : Nat
  b_device_protocol : Nat
  b_max_packet_size0 : Nat
  id_vendor : Nat
  id_product : Nat
  bcd_device : Nat
  i_manufacturer : Nat
  i_product : Nat
  i_serial_number : Nat
  b_num_configurations : Nat
deriving DecidableEq, Repr

/-- Modelled from the spec: serialization of the 18-byte Device Descriptor
(missing `serialize` module) — single-byte fields and little-endian 16-bit
fields appended in declaration order, as in spec section 4.3 and the
enumeration scenario byte listing. -/
def DeviceDescriptor.serializeBytes (d : DeviceDescriptor) : List Nat :=
  [d.b_length &&& 0xff,
   d.b_descriptor_type &&& 0xff,
   d.bcd_usb &&& 0xff, (d.bcd_usb >>> 8) &&& 0xff,
   d.b_device_class &&& 0xff,
   d.b_device_sub_class &&& 0xff,
   d.b_device_protocol &&& 0xff,
   d.b_max_packet_size0 &&& 0xff,
   d.id_vendor &&& 0xff, (d.id_vendor >>> 8) &&& 0xff,
   d.id_product &&& 0xff, (d.id_product >>> 8) &&& 0xff,
   d.bcd_device &&& 0xff, (d.bcd_device >>> 8) &&& 0xff,
   d.i_manufacturer &&& 0xff,
   d.i_product &&& 0xff,
   d.i_serial_number &&& 0xff,
   d.b_num_configurations &&& 0xff]

/-- `generate_device_descriptor` translated from mod.rs. -/
def generate_device_descriptor (m : Machine) : DeviceDescriptor :=
  { b_length := 18
    b_descriptor_type := 1
    bcd_usb := 0x0200
    b_device_class := m.deviceClass
    b_device_sub_class := 0x00
    b_device_protocol := 0x00
    b_max_packet_size0 := MAX_PACKET_SIZE
    id_vendor := m.vendorId
    id_product := m.productId
    bcd_device := 0x0100
    i_manufacturer := STRING_VENDOR
    i_product := STRING_BOARD
    i_serial_number := STRING_LANG
    b_num_configurations := 1 }

/-- Modelled from the spec: serialization of the one-off Interface
descriptor built by GET_DESCRIPTOR Interface (9 wire bytes; contents
STRING_INTERFACE2, 0, class 3, 0, 0; missing `serialize` module).  Only its
length matters to the driver logic modelled here. -/
def interfaceDescriptorBytes : List Nat :=
  [9, 4, 0, 0, 0, 3, 0, 0, STRING_INTERFACE2]

/-- `flush_tx_fifo` translated from mod.rs (the busy-wait on the TxFFlsh
bit clearing touches no driver state and is not modelled). -/
def flush_tx_fifo (m : Machine) (fifo : Nat) : Machine :=
  m.logWrite (RegWrite.txFifoFlush fifo)

/-- `expect_setup_packet` translated from mod.rs: arm the next OUT
descriptor for 64 bytes, enable OUT-0 and disable IN-0 interrupts, and
write ENABLE | CNAK to OUT-0 control. -/
def expect_setup_packet (m : Machine) : Machine :=
  let m1 := { m with state := USBState.WaitingForSetupPacket }
  let m2 := { m1 with
    outDescs := Function.update m1.outDescs m1.nextOutIdx
      (flagHostReadyLastIoc.bytes 64) }
  let newMask := (m2.allEpIntMask ||| AllEpOUT0) &&& AllEpIN0Complement
  let m3 := ({ m2 with allEpIntMask := newMask }).logWrite
    (RegWrite.allEpIntMaskWrite newMask)
  m3.logWrite (RegWrite.outEp0Control epCtlEnableCnak)

/-- `stall_both_fifos` translated from mod.rs. -/
def stall_both_fifos (m : Machine) : Machine :=
  let m1 := { m with state := USBState.WaitingForSetupPacket }
  let m2 := { m1 with
    outDescs := Function.update m1.outDescs m1.nextOutIdx
      (flagLastIoc.bytes 64) }
  let newMask := (m2.allEpIntMask ||| AllEpOUT0) &&& AllEpIN0Complement
  let m3 := ({ m2 with allEpIntMask := newMask }).logWrite
    (RegWrite.allEpIntMaskWrite newMask)
  let m4 := m3.logWrite (RegWrite.outEp0Control epCtlEnableStall)
  let m5 := flush_tx_fifo m4 0
  m5.logWrite (RegWrite.inEp0Control epCtlEnableStall)

/-- `swap_ep0_out_descriptors` translated from mod.rs: `last = next;
next = (next + 1) mod 2` (the OUT descriptor array has fixed size 2), then
point the controller's OUT-0 DMA address at the new `next`. -/
def swap_ep0_out_descriptors (m : Machine) : Machine :=
  let noi := m.nextOutIdx
  let m1 := { m with lastOutIdx := noi }
  let noi2 := (noi + 1) % 2
  let m2 := { m1 with nextOutIdx := noi2 }
  m2.logWrite (RegWrite.outEp0DmaAddr noi2)

/-- `expect_data_phase_in` translated from mod.rs: flush the TX FIFO, point
IN-0 DMA at descriptor 0, enable IN-0 (with CNAK only in case C), re-arm
the next OUT descriptor, enable OUT-0 likewise, and unmask IN0 | OUT0. -/
def expect_data_phase_in (m : Machine) (t : TableCase) : Machine :=
  let m1 := { m with state := USBState.DataStageIn }
  let m2 := flush_tx_fifo m1 0
  let m3 := m2.logWrite (RegWrite.inEp0DmaAddr 0)
  let m4 := m3.logWrite (RegWrite.inEp0Control
    (if t = TableCase.C then epCtlEnableCnak else epCtlEnable))
  let m5 := { m4 with
    outDescs := Function.update m4.outDescs m4.nextOutIdx
      (flagHostReadyLastIoc.bytes 64) }
  let m6 := m5.logWrite (RegWrite.outEp0Control
    (if t = TableCase.C then epCtlEnableCnak else epCtlEnable))
  let newMask := m6.allEpIntMask ||| AllEpIN0 ||| AllEpOUT0
  ({ m6 with allEpIntMask := newMask }).logWrite
    (RegWrite.allEpIntMaskWrite newMask)

/-- `expect_status_phase_in` translated from mod.rs: re-arm IN descriptor 0
as a zero-length packet at the IN buffer base, flush, point IN-0 DMA at it,
enable IN-0 (CNAK only in case C), re-arm the next OUT descriptor, enable
OUT-0 likewise, and unmask IN0 | OUT0. -/
def expect_status_phase_in (m : Machine) (t : TableCase) : Machine :=
  let m1 := { m with state := USBState.NoDataStage }
  let m2 := { m1 with
    inDesc0Addr := 0
    inDescs := Function.update m1.inDescs 0
      (flagHostReadyLastShortIoc.bytes 0) }
  let m3 := flush_tx_fifo m2 0
  let m4 := m3.logWrite (RegWrite.inEp0DmaAddr 0)
  let m5 := m4.logWrite (RegWrite.inEp0Control
    (if t = TableCase.C then epCtlEnableCnak else epCtlEnable))
  let m6 := { m5 with
    outDescs := Function.update m5.outDescs m5.nextOutIdx
      (flagHostReadyLastIoc.bytes 64) }
  let m7 := m6.logWrite (RegWrite.outEp0Control
    (if t = TableCase.C then epCtlEnableCnak else epCtlEnable))
  let newMask := m7.allEpIntMask ||| AllEpIN0 ||| AllEpOUT0
  ({ m7 with allEpIntMask := newMask }).logWrite
    (RegWrite.allEpIntMaskWrite newMask)

/-- The loop body of the Report-descriptor transfer in
`handle_standard_interface_to_host`, translated exactly from mod.rs:
`for i in 0..len { buf[i / 4] = (rpt[i] as u32) << ((3 - (i % 4)) * 8) }`
(note the plain assignment).  `i` is the next index, the second argument
the number of iterations left. -/
def storeReportIter (rpt : List Nat) (buf : Nat → Nat) : Nat → Nat → (Nat → Nat)
  | _, 0 => buf
  | i, fuel + 1 =>
      storeReportIter rpt
        (Function.update buf (i / 4) ((rpt.getD i 0) <<< ((3 - i % 4) * 8)))
        (i + 1) fuel

/-- Arm IN descriptor 0 with `HOST_READY | LAST | SHORT | IOC` and the
given byte count (the common `descs[0].flags = (...).bytes(len)` step). -/
def armIn0 (m : Machine) (len : Nat) : Machine :=
  { m with
    inDescs := Function.update m.inDescs 0
      (flagHostReadyLastShortIoc.bytes len) }

/-- `handle_standard_device_to_host` translated from mod.rs.  `none` is a
panic. -/
def handle_standard_device_to_host (m : Machine) (t : TableCase)
    (r : SetupRequest) : Option Machine :=
  match r.request with
  | SetupRequestType.GetDescriptor =>
    let descriptorType := r.w_value >>> 8
    if descriptorType = GET_DESCRIPTOR_DEVICE then
      let bytes := (generate_device_descriptor m).serializeBytes
      let m1 := { m with inBuf := writeWordsF (packWordsLE bytes) m.inBuf }
      let len := min bytes.length r.w_length
      some (expect_data_phase_in (armIn0 m1 len) t)
    else if descriptorType = GET_DESCRIPTOR_CONFIGURATION then
      let cd := m.configurationDescriptor
      let m1 := { m with
        inBuf := fun i =>
          if i < 16 then
            cd (4 * i) ||| (cd (4 * i + 1)) <<< 8 |||
              (cd (4 * i + 2)) <<< 16 ||| (cd (4 * i + 3)) <<< 24
          else m.inBuf i }
      let len := min m.configurationTotalLength r.w_length
      some (expect_data_phase_in (armIn0 m1 len) t)
    else if descriptorType = GET_DESCRIPTOR_INTERFACE then
      let m1 := { m with
        inBuf := writeWordsF (packWordsLE interfaceDescriptorBytes) m.inBuf }
      let len := min interfaceDescriptorBytes.length r.w_length
      some (expect_data_phase_in (armIn0 m1 len) t)
    else if descriptorType = GET_DESCRIPTOR_DEVICE_QUALIFIER then
      some (stall_both_fifos m)
    else if descriptorType = GET_DESCRIPTOR_STRING then
      let index := r.w_value &&& 0xff
      match m.strings.get? index with
      | none => none
      | some sbytes =>
        let m1 := { m with inBuf := writeWordsF (packWordsLE sbytes) m.inBuf }
        let len := min sbytes.length r.w_length
        some (expect_data_phase_in (armIn0 m1 len) t)
    else
      some (stall_both_fifos m)
  | SetupRequestType.GetConfiguration =>
    let m1 := { m with
      inBuf := Function.update m.inBuf 0 (m.configurationCurrentValue &&& 0xff) }
    let len := min 1 r.w_length
    some (expect_data_phase_in (armIn0 m1 len) t)
  | SetupRequestType.GetStatus =>
    let m1 := { m with inBuf := Function.update m.inBuf 0 0 }
    let m2 := armIn0 m1 2
    some (expect_status_phase_in m2 t)
  | _ => none

/-- `handle_standard_host_to_device` translated from mod.rs: unimplemented,
always a panic. -/
def handle_standard_host_to_device (_m : Machine) (_t : TableCase)
    (_r : SetupRequest) : Option Machine :=
  none

/-- `handle_standard_interface_to_host` translated from mod.rs: only
GET_DESCRIPTOR Report with an exactly matching length is served; the bytes
are stored by `storeReportIter` (plain assignment per iteration). -/
def handle_standard_interface_to_host (m : Machine) (t : TableCase)
    (r : SetupRequest) : Option Machine :=
  match r.request with
  | SetupRequestType.GetDescriptor =>
    let descriptor := (r.value >>> 8) &&& 0xff
    let len := r.length
    if descriptor = DESCRIPTOR_REPORT then
      if U2F_REPORT_DESCRIPTOR.length ≠ len then
        none
      else
        let m1 := { m with
          inBuf := storeReportIter U2F_REPORT_DESCRIPTOR m.inBuf 0 len }
        some (expect_data_phase_in (armIn0 m1 len) t)
    else
      none
  | _ => none

/-- `handle_standard_host_to_interface` translated from mod.rs: always a
panic. -/
def handle_standard_host_to_interface (_m : Machine) (_t : TableCase)
    (_r : SetupRequest) : Option Machine :=
  none

/-- `handle_class_interface_to_host` translated from mod.rs: always a
panic. -/
def handle_class_interface_to_host (_m : Machine) (_t : TableCase)
    (_r : SetupRequest) : Option Machine :=
  none

/-- `handle_class_host_to_interface` translated from mod.rs: SET_IDLE
stalls both FIFOs, anything else panics. -/
def handle_class_host_to_interface (m : Machine) (_t : TableCase)
    (r : SetupRequest) : Option Machine :=
  match r.class_request with
  | SetupClassRequestType.SetIdle => some (stall_both_fifos m)
  | SetupClassRequestType.Unknown => none

/-- `handle_standard_no_data_phase` translated from mod.rs. -/
def handle_standard_no_data_phase (m : Machine) (t : TableCase)
    (r : SetupRequest) : Option Machine :=
  match r.request with
  | SetupRequestType.GetStatus => none
  | SetupRequestType.SetAddress =>
    let dcfg := (m.deviceConfig &&& 0xFFFFF80F) ||| ((r.w_value &&& 0x7f) <<< 4)
    let m1 := ({ m with deviceConfig := dcfg }).logWrite
      (RegWrite.deviceConfigWrite dcfg)
    some (expect_status_phase_in m1 t)
  | SetupRequestType.SetConfiguration =>
    let m1 := { m with configurationCurrentValue := r.w_value &&& 0xff }
    some (expect_status_phase_in m1 t)
  | _ => none

/-- `handle_setup` translated from mod.rs: parse the SETUP packet out of
the most recently completed OUT buffer and dispatch on type, recipient and
direction; unrecognized combinations are silently ignored. -/
def handle_setup (m : Machine) (t : TableCase) : Option Machine :=
  if (currentSetup m).req_type = SetupRequestClass.Standard then
    if (currentSetup m).recipient = SetupRecipient.Device then
      if (currentSetup m).data_direction = SetupDirection.DeviceToHost then
        handle_standard_device_to_host m t (currentSetup m)
      else if 0 < (currentSetup m).w_length then
        handle_standard_host_to_device m t (currentSetup m)
      else
        handle_standard_no_data_phase m t (currentSetup m)
    else if (currentSetup m).recipient = SetupRecipient.Interface then
      if (currentSetup m).data_direction = SetupDirection.DeviceToHost then
        handle_standard_interface_to_host m t (currentSetup m)
      else
        handle_standard_host_to_interface m t (currentSetup m)
    else
      some m
  else if (currentSetup m).req_type = SetupRequestClass.Class ∧
      (currentSetup m).recipient = SetupRecipient.Interface then
    if (currentSetup m).data_direction = SetupDirection.DeviceToHost then
      handle_class_interface_to_host m t (currentSetup m)
    else
      handle_class_host_to_interface m t (currentSetup m)
  else
    some m

/-- `handle_endpoint0_events` translated from mod.rs.  The two interrupt
registers are hardware inputs, passed as `epOutInts` and `epInInts`;
`interOut` and `interIn` are the DAINT bits for endpoint 0.  `none` is a
panic. -/
def handle_endpoint0_events (m : Machine) (interOut interIn : Bool)
    (epOutInts epInInts : Nat) : Option Machine :=
  let m1 := if interOut then m.logWrite (RegWrite.outEp0Interrupt epOutInts)
            else m
  let m2 := if interIn then m1.logWrite (RegWrite.inEp0Interrupt epInInts)
            else m1
  let m3 := if interOut ∧ epOutInts &&& XferComplMsk ≠ 0 then
              swap_ep0_out_descriptors m2
            else m2
  let t := decode_interrupt epOutInts
  let setupReady := (m3.outDescs m3.lastOutIdx).setupReady
  match m3.state with
  | USBState.WaitingForSetupPacket =>
    if t = TableCase.A ∨ t = TableCase.C then
      if setupReady then handle_setup m3 t else none
    else if t = TableCase.B then
      some (stall_both_fifos m3)
    else
      some m3
  | USBState.DataStageIn =>
    let m4 := if interIn ∧ epInInts &&& InXferComplMsk ≠ 0 then
                m3.logWrite (RegWrite.inEp0Control epCtlEnable)
              else m3
    if interOut then
      if t = TableCase.B then
        some ((m4.logWrite (RegWrite.inEp0Control epCtlEnableCnak)).logWrite
          (RegWrite.outEp0Control epCtlEnableCnak))
      else if t = TableCase.A ∨ t = TableCase.C then
        if setupReady then handle_setup m4 t else some (expect_setup_packet m4)
      else
        some m4
    else
      some m4
  | USBState.NoDataStage =>
    let m4 := if interIn ∧ epInInts &&& AllEpIN0 ≠ 0 then
                m3.logWrite (RegWrite.inEp0Control epCtlEnable)
              else m3
    if interOut then
      if t = TableCase.B then
        some ((m4.logWrite (RegWrite.inEp0Control epCtlEnableCnak)).logWrite
          (RegWrite.outEp0Control epCtlEnableCnak))
      else if t = TableCase.A ∨ t = TableCase.C then
        if setupReady then handle_setup m4 t else some (expect_setup_packet m4)
      else
        some (expect_setup_packet m4)
    else
      some m4

/-- Modelled from the spec: the `Reset::CSftRst` bit of the reset register
(bit 0; missing `registers` module). -/
def CSftRst : Nat := 1

/-- Modelled from the spec: the `Reset::AHBIdle` bit of the reset register
(bit 31; missing `registers` module). -/
def AHBIdle : Nat := 0x80000000

/-- One polling loop of `soft_reset`: starting at read index `k` with the
given remaining timeout, keep reading while the predicate holds on the read
value and the timeout is positive, decrementing the timeout each iteration
(the Rust `while cond && timeout > 0 { timeout -= 1 }`).  Returns the final
timeout value and the next unconsumed read index. -/
def spinFlag (p : Nat → Bool) (reads : Nat → Nat) : Nat → Nat → Nat × Nat
  | k, 0 => (0, k + 1)
  | k, s + 1 => if p (reads k) then spinFlag p reads (k + 1) s else (s + 1, k + 1)

/-- The observable outcome of `soft_reset`: iteration counts of the two
polling loops, total register reads consumed, whether each loop exhausted
its timeout, and the values written to the reset register. -/
structure SoftResetResult where
  iters1 : Nat
  iters2 : Nat
  readsConsumed : Nat
  timedOut1 : Bool
  timedOut2 : Bool
  resetWrites : List Nat
deriving DecidableEq, Repr

/-- `soft_reset` translated from mod.rs: write CSftRst, poll (at most
10,000 decrements) until `reset & CSftRst == 1` fails, returning early on
timeout; then poll (at most 10,000 decrements) until `reset & AHBIdle == 0`
fails, returning early on timeout.  The register read values are the input
stream `reads`. -/
def soft_reset (reads : Nat → Nat) : SoftResetResult :=
  let res := spinFlag (fun r => r &&& CSftRst == 1) reads 0 10000
  if res.1 = 0 then
    { iters1 := 10000 - res.1, iters2 := 0, readsConsumed := res.2,
      timedOut1 := true, timedOut2 := false, resetWrites := [CSftRst] }
  else
    let res2 := spinFlag (fun r => r &&& AHBIdle == 0) reads res.2 10000
    if res2.1 = 0 then
      { iters1 := 10000 - res.1, iters2 := 10000 - res2.1,
        readsConsumed := res2.2, timedOut1 := false, timedOut2 := true,
        resetWrites := [CSftRst] }
    else
      { iters1 := 10000 - res.1, iters2 := 10000 - res2.1,
        readsConsumed := res2.2, timedOut1 := false, timedOut2 := false,
        resetWrites := [CSftRst] }

/-- A concrete post-init machine whose most recently completed OUT buffer
holds the SETUP packet with little-endian words `w0` and `w1`; used to
evaluate the handlers on concrete inputs. -/
def testMachine (w0 w1 : Nat) : Machine :=
  { state := USBState.WaitingForSetupPacket
    nextOutIdx := 0
    lastOutIdx := 0
    outDescs := fun _ => flagHostBusy
    inDescs := fun _ => flagHostBusy
    inDesc0Addr := 0
    inBuf := fun _ => 0
    outBufs := fun i j =>
      if i = 0 then (if j = 0 then w0 else if j = 1 then w1 else 0) else 0
    strings := []
    configurationDescriptor := fun _ => 0
    deviceConfig := 0
    allEpIntMask := 0
    configurationCurrentValue := 0
    configurationTotalLength := 0
    deviceClass := 0
    vendorId := 0x0011
    productId := 0x5026
    writes := [] }

/-- Replace the SETUP packet in the most recently completed OUT buffer of a
machine (the host's next SETUP transaction overwriting the armed buffer). -/
def withSetupPacket (m : Machine) (w0 w1 : Nat) : Machine :=
  { m with
    outBufs := fun i j =>
      if i = m.lastOutIdx then
        (if j = 0 then w0 else if j = 1 then w1 else m.outBufs i j)
      else m.outBufs i j }

/-- One endpoint-0 interrupt delivery: the DAINT bits for endpoint 0 and
the OUT/IN endpoint interrupt register values read by the handler. -/
structure Ep0Event where
  interOut : Bool
  interIn : Bool
  epOutInts : Nat
  epInInts : Nat

/-- Whether an event carries an OUT-endpoint-0 XferCompl completion (the
condition under which `handle_endpoint0_events` rotates the OUT
descriptors). -/
def Ep0Event.isXferCompl (e : Ep0Event) : Bool :=
  e.interOut && decide (e.epOutInts &&& XferComplMsk ≠ 0)

/-- Run `handle_endpoint0_events` over a list of events in order,
propagating a panic. -/
def processEvents (m : Machine) : List Ep0Event → Option Machine
  | [] => some m
  | e :: es =>
    match handle_endpoint0_events m e.interOut e.interIn e.epOutInts
        e.epInInts with
    | none => none
    | some m2 => processEvents m2 es

/-- A waiting machine whose OUT descriptors show SETUP_READY and whose
buffer holds a Vendor SETUP packet; an XferCompl event on it dispatches to
the silently ignored vendor request and succeeds. -/
def testMachineReady : Machine :=
  { testMachine 0x40 0 with
    outDescs := fun _ => { flagHostBusy with setupReady := true } }

/-- C1: on each of the five documented bit combinations of
XferCompl, SetUP and StsPhseRcvd, `decode_interrupt` returns exactly the
corresponding table case. -/
theorem decode_interrupt_matches_documented_cases (w : Nat) (c : TableCase)
    (h : intBits w = c.bitsPattern) : decode_interrupt w = c := by
  have h1 := congrArg Prod.fst h
  have h2 := congrArg (fun p => p.snd.fst) h
  have h3 := congrArg (fun p => p.snd.snd) h
  simp only [intBits, TableCase.bitsPattern] at h1 h2 h3
  cases c <;>
    simp only [TableCase.bitsPattern] at h1 h2 h3 <;>
    simp only [decode_interrupt, decide_eq_true_eq, decide_eq_false_iff_not,
      Decidable.not_not] at h1 h2 h3 ⊢ <;>
    simp [h1, h2, h3]

/-- Witness for C1: the interrupt word 1 (XferCompl alone) decodes to case A. -/
theorem decode_interrupt_matches_documented_cases_witness :
    intBits 1 = TableCase.A.bitsPattern ∧ decode_interrupt 1 = TableCase.A :=
  ⟨by decide, decode_interrupt_matches_documented_cases 1 TableCase.A (by decide)⟩

/-- A polling loop's final timeout never exceeds its starting timeout, and
it consumes exactly one read per iteration plus the final condition check. -/
theorem spinFlag_bounds (p : Nat → Bool) (reads : Nat → Nat) :
    ∀ t k, (spinFlag p reads k t).1 ≤ t ∧
      (spinFlag p reads k t).2 = k + (t - (spinFlag p reads k t).1) + 1 := by
  intro t
  induction t with
  | zero => intro k; simp [spinFlag]
  | succ s ih =>
    intro k
    by_cases hp : p (reads k)
    · have := ih (k + 1)
      constructor
      · simp only [spinFlag, hp, if_true]
        exact le_trans this.1 (Nat.le_succ s)
      · simp only [spinFlag, hp, if_true]
        have h1 := this.1
        have h2 := this.2
        omega
    · simp [spinFlag, hp]

/-- C8: for every stream of reset-register read values, each of the two
polling loops of `soft_reset` runs at most 10,000 iterations; a first-loop
timeout means the second loop never polls; the only register write is the
initial CSftRst; and the total number of register reads is bounded (so
`soft_reset` terminates on every input stream). -/
theorem soft_reset_bounded (reads : Nat → Nat) :
    (soft_reset reads).iters1 ≤ 10000 ∧
    (soft_reset reads).iters2 ≤ 10000 ∧
    (if (soft_reset reads).timedOut1 then (soft_reset reads).iters2 else 0)
      = 0 ∧
    (soft_reset reads).resetWrites = [CSftRst] ∧
    (soft_reset reads).readsConsumed ≤ 20002 := by
  have h1 := spinFlag_bounds (fun r => r &&& CSftRst == 1) reads 10000 0
  unfold soft_reset
  by_cases hc : (spinFlag (fun r => r &&& CSftRst == 1) reads 0 10000).1 = 0
  · simp only [hc, if_true]
    refine ⟨by omega, by omega, by simp, by simp, by omega⟩
  · simp only [hc, if_false]
    have h2 := spinFlag_bounds (fun r => r &&& AHBIdle == 0) reads 10000
      (spinFlag (fun r => r &&& CSftRst == 1) reads 0 10000).2
    by_cases hc2 : (spinFlag (fun r => r &&& AHBIdle == 0) reads
        (spinFlag (fun r => r &&& CSftRst == 1) reads 0 10000).2 10000).1 = 0
    · simp only [hc2, if_true]
      refine ⟨by omega, by omega, by simp, by simp, by omega⟩
    · simp only [hc2, if_false]
      refine ⟨by omega, by omega, by simp, by simp, by omega⟩

/-- C9: a SETUP packet of Vendor type, or of Standard type with a recipient
other than Device or Interface, makes `handle_setup` a silent no-op: no
panic, and the machine — driver state, descriptors, buffers and the record
of register writes included — is returned unchanged. -/
theorem handle_setup_unknown_silent_noop (m : Machine) (t : TableCase)
    (h : (currentSetup m).req_type = SetupRequestClass.Vendor ∨
      ((currentSetup m).req_type = SetupRequestClass.Standard ∧
        (currentSetup m).recipient ≠ SetupRecipient.Device ∧
        (currentSetup m).recipient ≠ SetupRecipient.Interface)) :
    handle_setup m t = some m := by
  rcases h with hv | ⟨hs, hd, hi⟩
  · simp [handle_setup, hv]
  · simp [handle_setup, hs, hd, hi]

/-- Witness for C9: a Vendor-type SETUP packet (bmRequestType 0x40) is
ignored and leaves the machine untouched. -/
theorem handle_setup_unknown_silent_noop_witness :
    (currentSetup (testMachine 0x40 0)).req_type = SetupRequestClass.Vendor ∧
    handle_setup (testMachine 0x40 0) TableCase.A = some (testMachine 0x40 0) :=
  ⟨by decide,
   handle_setup_unknown_silent_noop (testMachine 0x40 0) TableCase.A
     (Or.inl (by decide))⟩

/-- Bits 10:4 of the device-config value produced by the SET_ADDRESS
branch read back exactly the masked address `w &&& 0x7f`. -/
theorem setAddress_extract (a w : Nat) :
    (((a &&& 0xFFFFF80F) ||| ((w &&& 0x7f) <<< 4)) >>> 4) &&& 0x7f
      = w &&& 0x7f := by
  have h127 : (0x7f : Nat) = 2 ^ 7 - 1 := by norm_num
  have hm : ∀ j, j < 7 → Nat.testBit 0xFFFFF80F (4 + j) = false := by decide
  apply Nat.eq_of_testBit_eq
  intro j
  rw [h127]
  simp only [Nat.testBit_and, Nat.testBit_or, Nat.testBit_shiftRight,
    Nat.testBit_shiftLeft, Nat.testBit_two_pow_sub_one]
  by_cases hj : j < 7
  · have h2 : 4 + j - 4 = j := by omega
    simp [hm j hj, h2, hj, Nat.le_add_right]
  · simp [hj]

/-- The SET_ADDRESS device-config update touches no bit of the 32-bit
register outside bits 10:4. -/
theorem setAddress_preserves (a w : Nat) : ∀ i, i < 32 → (i < 4 ∨ 10 < i) →
    (((a &&& 0xFFFFF80F) ||| ((w &&& 0x7f) <<< 4)).testBit i)
      = a.testBit i := by
  have h127 : (0x7f : Nat) = 2 ^ 7 - 1 := by norm_num
  have hm : ∀ i, i < 32 → (i < 4 ∨ 10 < i) →
      Nat.testBit 0xFFFFF80F i = true := by decide
  intro i h32 hi
  rw [h127]
  simp only [Nat.testBit_and, Nat.testBit_or, Nat.testBit_shiftLeft,
    Nat.testBit_two_pow_sub_one, hm i h32 hi, Bool.and_true]
  rcases hi with hlt | hgt
  · have h4 : ¬ (4 ≤ i) := by omega
    simp [h4]
  · have h7 : ¬ (i - 4 < 7) := by omega
    simp [h7]

/-- C6: a Standard/Device SET_ADDRESS SETUP packet with no data phase makes
the driver write `wValue &&& 0x7f` into bits 10:4 of the device_config
register, leave every other bit of the 32-bit register unchanged, and move
the state machine to NoDataStage. -/
theorem handle_setup_set_address (m : Machine) (t : TableCase)
    (h1 : (currentSetup m).req_type = SetupRequestClass.Standard)
    (h2 : (currentSetup m).recipient = SetupRecipient.Device)
    (h3 : (currentSetup m).data_direction = SetupDirection.HostToDevice)
    (h4 : (currentSetup m).w_length = 0)
    (h5 : (currentSetup m).request = SetupRequestType.SetAddress) :
    ∃ m', handle_setup m t = some m' ∧
      (m'.deviceConfig >>> 4) &&& 0x7f = (currentSetup m).w_value &&& 0x7f ∧
      (∀ i, i < 32 → (i < 4 ∨ 10 < i) →
        m'.deviceConfig.testBit i = m.deviceConfig.testBit i) ∧
      m'.state = USBState.NoDataStage := by
  have hstep : handle_setup m t = some (expect_status_phase_in
      (({ m with deviceConfig := (m.deviceConfig &&& 0xFFFFF80F) |||
          (((currentSetup m).w_value &&& 0x7f) <<< 4) }).logWrite
        (RegWrite.deviceConfigWrite ((m.deviceConfig &&& 0xFFFFF80F) |||
          (((currentSetup m).w_value &&& 0x7f) <<< 4)))) t) := by
    simp [handle_setup, h1, h2, h3, h4, h5, handle_standard_no_data_phase]
  refine ⟨_, hstep, ?_, ?_, ?_⟩
  · simp only [expect_status_phase_in, flush_tx_fifo, Machine.logWrite]
    exact setAddress_extract m.deviceConfig (currentSetup m).w_value
  · simp only [expect_status_phase_in, flush_tx_fifo, Machine.logWrite]
    exact setAddress_preserves m.deviceConfig (currentSetup m).w_value
  · simp [expect_status_phase_in, flush_tx_fifo, Machine.logWrite]

/-- Witness for C6: the spec's SET_ADDRESS scenario packet
0x00 0x05 0x0042 0x0000 0x0000 sets device-config bits 10:4 to 0x42 and
enters NoDataStage (device_config starts at 0 in the test machine). -/
theorem handle_setup_set_address_witness :
    (currentSetup (testMachine 0x04200500 0)).req_type
        = SetupRequestClass.Standard ∧
    (currentSetup (testMachine 0x04200500 0)).w_length = 0 ∧
    ∃ m', handle_setup (testMachine 0x04200500 0) TableCase.A = some m' ∧
      (m'.deviceConfig >>> 4) &&& 0x7f
        = (currentSetup (testMachine 0x04200500 0)).w_value &&& 0x7f ∧
      (∀ i, i < 32 → (i < 4 ∨ 10 < i) →
        m'.deviceConfig.testBit i
          = (testMachine 0x04200500 0).deviceConfig.testBit i) ∧
      m'.state = USBState.NoDataStage :=
  ⟨by decide, by decide,
   handle_setup_set_address (testMachine 0x04200500 0) TableCase.A
     (by decide) (by decide) (by decide) (by decide) (by decide)⟩

/-- C2: a Standard/Device/GET_DESCRIPTOR SETUP packet with descriptor type
Device serializes a response of exactly 18 bytes into the endpoint-0 IN
buffer, whose first byte (b_length) is 18 and second byte
(b_descriptor_type) is 1, and arms IN descriptor 0 with byte count
`min 18 wLength`. -/
theorem handle_setup_get_descriptor_device (m : Machine) (t : TableCase)
    (h1 : (currentSetup m).req_type = SetupRequestClass.Standard)
    (h2 : (currentSetup m).recipient = SetupRecipient.Device)
    (h3 : (currentSetup m).data_direction = SetupDirection.DeviceToHost)
    (h4 : (currentSetup m).request = SetupRequestType.GetDescriptor)
    (h5 : (currentSetup m).w_value >>> 8 = GET_DESCRIPTOR_DEVICE) :
    ∃ m', handle_setup m t = some m' ∧
      ((generate_device_descriptor m).serializeBytes).length = 18 ∧
      bufByteLE m'.inBuf 0 = 18 ∧
      bufByteLE m'.inBuf 1 = 1 ∧
      (m'.inDescs 0).byteCount = min 18 (currentSetup m).w_length := by
  have hstep : handle_setup m t = some (expect_data_phase_in
      (armIn0 { m with inBuf := (writeWordsF
          (packWordsLE (generate_device_descriptor m).serializeBytes)
          m.inBuf) }
        (min ((generate_device_descriptor m).serializeBytes).length
          (currentSetup m).w_length)) t) := by
    simp [handle_setup, h1, h2, h3, h4, h5, handle_standard_device_to_host]
  refine ⟨_, hstep, rfl, ?_, ?_, ?_⟩
  · simp only [expect_data_phase_in, flush_tx_fifo, Machine.logWrite, armIn0]
    simp [bufByteLE, writeWordsF, packWordsLE,
      DeviceDescriptor.serializeBytes, generate_device_descriptor]
    decide
  · simp only [expect_data_phase_in, flush_tx_fifo, Machine.logWrite, armIn0]
    simp [bufByteLE, writeWordsF, packWordsLE,
      DeviceDescriptor.serializeBytes, generate_device_descriptor]
    decide
  · simp only [expect_data_phase_in, flush_tx_fifo, Machine.logWrite, armIn0]
    simp [Function.update_same, DescFlag.bytes, flagHostReadyLastShortIoc,
      DeviceDescriptor.serializeBytes]

/-- Witness for C2: the spec's enumeration scenario packet
0x80 0x06 0x0100 0x0000 0x0040 (GET_DESCRIPTOR Device, wLength 64). -/
theorem handle_setup_get_descriptor_device_witness :
    (currentSetup (testMachine 0x01000680 0x00400000)).request
        = SetupRequestType.GetDescriptor ∧
    ∃ m', handle_setup (testMachine 0x01000680 0x00400000) TableCase.A
        = some m' ∧
      ((generate_device_descriptor
          (testMachine 0x01000680 0x00400000)).serializeBytes).length = 18 ∧
      bufByteLE m'.inBuf 0 = 18 ∧
      bufByteLE m'.inBuf 1 = 1 ∧
      (m'.inDescs 0).byteCount
        = min 18 (currentSetup (testMachine 0x01000680 0x00400000)).w_length :=
  ⟨by decide,
   handle_setup_get_descriptor_device (testMachine 0x01000680 0x00400000)
     TableCase.A (by decide) (by decide) (by decide) (by decide) (by decide)⟩

/-- C5 evaluation: on the GET_STATUS packet 0x80 0x00 0x0000 0x0000 0x0002
the handler zeroes the first IN-buffer word and enters NoDataStage, but the
final IN descriptor 0 byte count is 0, not 2: the GetStatus arm writes
byte count 2 and `expect_status_phase_in` then rewrites descriptor 0 as a
zero-length packet. -/
theorem handle_setup_get_status_armed_zero :
    ∃ m', handle_setup (testMachine 0x80 0x20000) TableCase.A = some m' ∧
      (m'.inDescs 0).byteCount = 0 ∧
      m'.inBuf 0 = 0 ∧
      m'.state = USBState.NoDataStage :=
  ⟨_, rfl, by decide, by decide, by decide⟩

/-- Replacing the SETUP packet of a machine changes only what `currentSetup`
reads: the new words parse as the new request. -/
theorem currentSetup_withSetupPacket (m : Machine) (w0 w1 : Nat) :
    currentSetup (withSetupPacket m w0 w1) = SetupRequest.ofWords w0 w1 := by
  simp [currentSetup, withSetupPacket]

/-- C7: handling SET_CONFIGURATION with wValue `v` records `v &&& 0xff` in
`configuration_current_value` and enters NoDataStage; a subsequent
GET_CONFIGURATION with any wLength `L` between 1 and 0xffff then responds
with exactly that byte in the first position of the endpoint-0 IN buffer,
arming IN descriptor 0 with byte count 1. -/
theorem set_then_get_configuration (m : Machine) (t1 t2 : TableCase) (L : Nat)
    (h1 : (currentSetup m).req_type = SetupRequestClass.Standard)
    (h2 : (currentSetup m).recipient = SetupRecipient.Device)
    (h3 : (currentSetup m).data_direction = SetupDirection.HostToDevice)
    (h4 : (currentSetup m).w_length = 0)
    (h5 : (currentSetup m).request = SetupRequestType.SetConfiguration)
    (hL1 : 1 ≤ L) (hL2 : L < 0x10000) :
    ∃ m1, handle_setup m t1 = some m1 ∧
      m1.configurationCurrentValue = (currentSetup m).w_value &&& 0xff ∧
      m1.state = USBState.NoDataStage ∧
      ∃ m2, handle_setup (withSetupPacket m1 0x880 (L <<< 16)) t2
          = some m2 ∧
        bufByteLE m2.inBuf 0 = (currentSetup m).w_value &&& 0xff ∧
        (m2.inDescs 0).byteCount = 1 := by
  have hstep1 : handle_setup m t1 = some (expect_status_phase_in
      { m with configurationCurrentValue :=
          (currentSetup m).w_value &&& 0xff } t1) := by
    simp [handle_setup, h1, h2, h3, h4, h5, handle_standard_no_data_phase]
  refine ⟨_, hstep1, ?_, ?_, ?_⟩
  · simp [expect_status_phase_in, flush_tx_fifo, Machine.logWrite]
  · simp [expect_status_phase_in, flush_tx_fifo, Machine.logWrite]
  · set m1 := expect_status_phase_in
      { m with configurationCurrentValue :=
          (currentSetup m).w_value &&& 0xff } t1 with hm1
    have hcur : currentSetup (withSetupPacket m1 0x880 (L <<< 16))
        = SetupRequest.ofWords 0x880 (L <<< 16) :=
      currentSetup_withSetupPacket m1 0x880 (L <<< 16)
    have hlen : (SetupRequest.ofWords 0x880 (L <<< 16)).w_length = L := by
      have hshift : (L <<< 16) >>> 16 = L := by
        simp [Nat.shiftLeft_eq, Nat.shiftRight_eq_div_pow]
      have hmask : L &&& 0xffff = L := by
        have h16 : (0xffff : Nat) = 2 ^ 16 - 1 := by norm_num
        rw [h16, Nat.and_pow_two_sub_one_eq_mod, Nat.mod_eq_of_lt hL2]
      simp [SetupRequest.ofWords, hshift, hmask]
    have hccv : m1.configurationCurrentValue
        = (currentSetup m).w_value &&& 0xff := by
      simp [hm1, expect_status_phase_in, flush_tx_fifo, Machine.logWrite]
    have e1 : (SetupRequest.ofWords 0x880 (L <<< 16)).req_type
        = SetupRequestClass.Standard := by
      simp only [SetupRequest.ofWords, SetupRequest.req_type]
    have e2 : (SetupRequest.ofWords 0x880 (L <<< 16)).recipient
        = SetupRecipient.Device := by
      simp only [SetupRequest.ofWords, SetupRequest.recipient]
    have e3 : (SetupRequest.ofWords 0x880 (L <<< 16)).data_direction
        = SetupDirection.DeviceToHost := by
      have hbit : ((0x880 : Nat) &&& 255) &&& 128 ≠ 0 := by decide
      simp only [SetupRequest.ofWords, SetupRequest.data_direction]
      simp [hbit]
    have e4 : (SetupRequest.ofWords 0x880 (L <<< 16)).request
        = SetupRequestType.GetConfiguration := by
      simp only [SetupRequest.ofWords, SetupRequest.request]
    have hstep2 : handle_setup (withSetupPacket m1 0x880 (L <<< 16)) t2
        = some (expect_data_phase_in
          (armIn0 { (withSetupPacket m1 0x880 (L <<< 16)) with
              inBuf := (Function.update
                (withSetupPacket m1 0x880 (L <<< 16)).inBuf 0
                ((withSetupPacket m1 0x880 (L <<< 16)).configurationCurrentValue
                  &&& 0xff)) }
            (min 1 L))
          t2) := by
      simp only [handle_setup, hcur]
      rw [e1, e2, e3]
      simp [handle_standard_device_to_host, e4, hcur, hlen]
    refine ⟨_, hstep2, ?_, ?_⟩
    · have hup : (withSetupPacket m1 0x880 (L <<< 16)).configurationCurrentValue
          = m1.configurationCurrentValue := by
        simp [withSetupPacket]
      simp only [expect_data_phase_in, flush_tx_fifo, Machine.logWrite, armIn0,
        bufByteLE]
      simp only [hup, hccv]
      have : ((currentSetup m).w_value &&& 0xff) &&& 0xff
          = (currentSetup m).w_value &&& 0xff := by
        rw [Nat.and_assoc, Nat.and_self]
      simp [Function.update_same, this]
    · simp only [expect_data_phase_in, flush_tx_fifo, Machine.logWrite, armIn0]
      simp [Function.update_same, DescFlag.bytes, flagHostReadyLastShortIoc,
        hcur, hlen, Nat.min_eq_left hL1]

/-- Witness for C7: SET_CONFIGURATION wValue 1 (spec scenario 5) followed by
GET_CONFIGURATION with wLength 1 (spec scenario 6) reads back byte 1. -/
theorem set_then_get_configuration_witness :
    (currentSetup (testMachine 0x00010900 0)).request
        = SetupRequestType.SetConfiguration ∧
    ∃ m1, handle_setup (testMachine 0x00010900 0) TableCase.A = some m1 ∧
      m1.configurationCurrentValue
        = (currentSetup (testMachine 0x00010900 0)).w_value &&& 0xff ∧
      m1.state = USBState.NoDataStage ∧
      ∃ m2, handle_setup (withSetupPacket m1 0x880 (1 <<< 16)) TableCase.A
          = some m2 ∧
        bufByteLE m2.inBuf 0
          = (currentSetup (testMachine 0x00010900 0)).w_value &&& 0xff ∧
        (m2.inDescs 0).byteCount = 1 :=
  ⟨by decide,
   set_then_get_configuration (testMachine 0x00010900 0) TableCase.A
     TableCase.A 1 (by decide) (by decide) (by decide) (by decide) (by decide)
     (by decide) (by decide)⟩

/-- Characterization of decoding to case D: XferCompl and SetUP both
clear. -/
theorem decode_eq_D_iff (w : Nat) : decode_interrupt w = TableCase.D ↔
    (w &&& XferComplMsk = 0 ∧ w &&& SetUPMsk = 0) := by
  unfold decode_interrupt
  by_cases h1 : w &&& XferComplMsk = 0 <;> by_cases h2 : w &&& SetUPMsk = 0 <;>
    by_cases h3 : w &&& StsPhseRcvdMsk = 0 <;> simp [h1, h2, h3]

/-- Characterization of decoding to case E: XferCompl and StsPhseRcvd set,
SetUP clear. -/
theorem decode_eq_E_iff (w : Nat) : decode_interrupt w = TableCase.E ↔
    (w &&& XferComplMsk ≠ 0 ∧ w &&& SetUPMsk = 0 ∧
      w &&& StsPhseRcvdMsk ≠ 0) := by
  unfold decode_interrupt
  by_cases h1 : w &&& XferComplMsk = 0 <;> by_cases h2 : w &&& SetUPMsk = 0 <;>
    by_cases h3 : w &&& StsPhseRcvdMsk = 0 <;> simp [h1, h2, h3]

/-- C10: in WaitingForSetupPacket, an OUT endpoint-0 event whose interrupt
word decodes to table case D or E does not panic, leaves the driver state
in WaitingForSetupPacket, writes no OUT or IN descriptor flag word and no
IN buffer word, and performs no setup dispatch or stall: the only register
writes appended are interrupt acknowledgements or the OUT DMA-address
rotation, never an endpoint-control write. -/
theorem waiting_case_d_e_no_action (m : Machine) (interIn : Bool)
    (epOutInts epInInts : Nat)
    (hs : m.state = USBState.WaitingForSetupPacket)
    (hd : decode_interrupt epOutInts = TableCase.D ∨
          decode_interrupt epOutInts = TableCase.E) :
    ∃ m', handle_endpoint0_events m true interIn epOutInts epInInts
        = some m' ∧
      m'.state = USBState.WaitingForSetupPacket ∧
      m'.outDescs = m.outDescs ∧
      m'.inDescs = m.inDescs ∧
      m'.inBuf = m.inBuf ∧
      (∃ nw, m'.writes = nw ++ m.writes ∧
        ∀ w ∈ nw, (∀ v, w ≠ RegWrite.outEp0Control v) ∧
                  (∀ v, w ≠ RegWrite.inEp0Control v)) := by
  rcases hd with hD | hE
  · obtain ⟨hx, _⟩ := (decode_eq_D_iff epOutInts).1 hD
    cases interIn
    · refine ⟨m.logWrite (RegWrite.outEp0Interrupt epOutInts), ?_, ?_, rfl,
        rfl, rfl, ⟨[RegWrite.outEp0Interrupt epOutInts], rfl, ?_⟩⟩
      · simp [handle_endpoint0_events, hx, hD, hs, Machine.logWrite]
      · simp [Machine.logWrite, hs]
      · simp
    · refine ⟨(m.logWrite (RegWrite.outEp0Interrupt epOutInts)).logWrite
          (RegWrite.inEp0Interrupt epInInts), ?_, ?_, rfl, rfl, rfl,
        ⟨[RegWrite.inEp0Interrupt epInInts,
          RegWrite.outEp0Interrupt epOutInts], rfl, ?_⟩⟩
      · simp [handle_endpoint0_events, hx, hD, hs, Machine.logWrite]
      · simp [Machine.logWrite, hs]
      · simp
  · obtain ⟨hx, _, _⟩ := (decode_eq_E_iff epOutInts).1 hE
    cases interIn
    · refine ⟨swap_ep0_out_descriptors
          (m.logWrite (RegWrite.outEp0Interrupt epOutInts)), ?_, ?_, rfl,
        rfl, rfl,
        ⟨[RegWrite.outEp0DmaAddr ((m.nextOutIdx + 1) % 2),
          RegWrite.outEp0Interrupt epOutInts], ?_, ?_⟩⟩
      · simp [handle_endpoint0_events, hx, hE, hs, Machine.logWrite,
          swap_ep0_out_descriptors]
      · simp [Machine.logWrite, swap_ep0_out_descriptors, hs]
      · simp [Machine.logWrite, swap_ep0_out_descriptors]
      · simp
    · refine ⟨swap_ep0_out_descriptors
          ((m.logWrite (RegWrite.outEp0Interrupt epOutInts)).logWrite
            (RegWrite.inEp0Interrupt epInInts)), ?_, ?_, rfl, rfl, rfl,
        ⟨[RegWrite.outEp0DmaAddr ((m.nextOutIdx + 1) % 2),
          RegWrite.inEp0Interrupt epInInts,
          RegWrite.outEp0Interrupt epOutInts], ?_, ?_⟩⟩
      · simp [handle_endpoint0_events, hx, hE, hs, Machine.logWrite,
          swap_ep0_out_descriptors]
      · simp [Machine.logWrite, swap_ep0_out_descriptors, hs]
      · simp [Machine.logWrite, swap_ep0_out_descriptors]
      · simp

/-- Witness for C10: a StsPhseRcvd-only interrupt word (case D) on a
waiting machine is a no-op apart from the interrupt acknowledgement. -/
theorem waiting_case_d_e_no_action_witness :
    (testMachine 0 0).state = USBState.WaitingForSetupPacket ∧
    decode_interrupt 32 = TableCase.D ∧
    ∃ m', handle_endpoint0_events (testMachine 0 0) true false 32 0
        = some m' ∧
      m'.state = USBState.WaitingForSetupPacket ∧
      m'.outDescs = (testMachine 0 0).outDescs ∧
      m'.inDescs = (testMachine 0 0).inDescs ∧
      m'.inBuf = (testMachine 0 0).inBuf ∧
      (∃ nw, m'.writes = nw ++ (testMachine 0 0).writes ∧
        ∀ w ∈ nw, (∀ v, w ≠ RegWrite.outEp0Control v) ∧
                  (∀ v, w ≠ RegWrite.inEp0Control v)) :=
  ⟨by decide, by decide,
   waiting_case_d_e_no_action (testMachine 0 0) false 32 0 (by decide)
     (Or.inl (by decide))⟩

/-- C4 evaluation: on GET_DESCRIPTOR Report (SETUP 0x81 0x06 0x2200 0x0000
with wLength 34 = len(U2F_REPORT_DESCRIPTOR)), the handler's per-byte
assignment `buf[i/4] = byte << ((3 - i%4) * 8)` overwrites each word, so
word 0 ends as just the fourth report byte (0x09): the byte-0 read-back
under the documented big-endian-within-word packing is 0, not the first
report byte 0x06, falsifying the claimed accumulating `|=` packing. -/
theorem report_descriptor_word_overwritten :
    ∃ m', handle_setup (testMachine 0x22000681 0x220000) TableCase.A
        = some m' ∧
      U2F_REPORT_DESCRIPTOR.length = 34 ∧
      U2F_REPORT_DESCRIPTOR.getD 0 0 = 0x06 ∧
      m'.inBuf 0 = 0x09 ∧
      bufByteBE m'.inBuf 0 = 0 ∧
      bufByteBE m'.inBuf 0 ≠ U2F_REPORT_DESCRIPTOR.getD 0 0 ∧
      (m'.inDescs 0).byteCount = 34 ∧
      m'.state = USBState.DataStageIn :=
  ⟨_, rfl, by decide, by decide, by decide, by decide, by decide, by decide,
   by decide⟩

/-- Logging a register write leaves `next_out_idx` unchanged. -/
@[simp] theorem logWrite_nextOutIdx (m : Machine) (w : RegWrite) :
    (m.logWrite w).nextOutIdx = m.nextOutIdx := rfl

/-- Logging a register write leaves `last_out_idx` unchanged. -/
@[simp] theorem logWrite_lastOutIdx (m : Machine) (w : RegWrite) :
    (m.logWrite w).lastOutIdx = m.lastOutIdx := rfl

/-- Logging a register write leaves the driver state unchanged. -/
@[simp] theorem logWrite_state (m : Machine) (w : RegWrite) :
    (m.logWrite w).state = m.state := rfl

/-- `armIn0` leaves `next_out_idx` unchanged. -/
@[simp] theorem armIn0_nextOutIdx (m : Machine) (len : Nat) :
    (armIn0 m len).nextOutIdx = m.nextOutIdx := rfl

/-- `armIn0` leaves `last_out_idx` unchanged. -/
@[simp] theorem armIn0_lastOutIdx (m : Machine) (len : Nat) :
    (armIn0 m len).lastOutIdx = m.lastOutIdx := rfl

/-- `expect_setup_packet` leaves `next_out_idx` unchanged. -/
@[simp] theorem expect_setup_packet_nextOutIdx (m : Machine) :
    (expect_setup_packet m).nextOutIdx = m.nextOutIdx := by
  simp [expect_setup_packet, Machine.logWrite]

/-- `expect_setup_packet` leaves `last_out_idx` unchanged. -/
@[simp] theorem expect_setup_packet_lastOutIdx (m : Machine) :
    (expect_setup_packet m).lastOutIdx = m.lastOutIdx := by
  simp [expect_setup_packet, Machine.logWrite]

/-- `stall_both_fifos` leaves `next_out_idx` unchanged. -/
@[simp] theorem stall_both_fifos_nextOutIdx (m : Machine) :
    (stall_both_fifos m).nextOutIdx = m.nextOutIdx := by
  simp [stall_both_fifos, flush_tx_fifo, Machine.logWrite]

/-- `stall_both_fifos` leaves `last_out_idx` unchanged. -/
@[simp] theorem stall_both_fifos_lastOutIdx (m : Machine) :
    (stall_both_fifos m).lastOutIdx = m.lastOutIdx := by
  simp [stall_both_fifos, flush_tx_fifo, Machine.logWrite]

/-- `expect_data_phase_in` leaves `next_out_idx` unchanged. -/
@[simp] theorem expect_data_phase_in_nextOutIdx (m : Machine) (t : TableCase) :
    (expect_data_phase_in m t).nextOutIdx = m.nextOutIdx := by
  simp [expect_data_phase_in, flush_tx_fifo, Machine.logWrite]

/-- `expect_data_phase_in` leaves `last_out_idx` unchanged. -/
@[simp] theorem expect_data_phase_in_lastOutIdx (m : Machine) (t : TableCase) :
    (expect_data_phase_in m t).lastOutIdx = m.lastOutIdx := by
  simp [expect_data_phase_in, flush_tx_fifo, Machine.logWrite]

/-- `expect_status_phase_in` leaves `next_out_idx` unchanged. -/
@[simp] theorem expect_status_phase_in_nextOutIdx (m : Machine)
    (t : TableCase) :
    (expect_status_phase_in m t).nextOutIdx = m.nextOutIdx := by
  simp [expect_status_phase_in, flush_tx_fifo, Machine.logWrite]

/-- `expect_status_phase_in` leaves `last_out_idx` unchanged. -/
@[simp] theorem expect_status_phase_in_lastOutIdx (m : Machine)
    (t : TableCase) :
    (expect_status_phase_in m t).lastOutIdx = m.lastOutIdx := by
  simp [expect_status_phase_in, flush_tx_fifo, Machine.logWrite]

/-- `swap_ep0_out_descriptors` sets `last_out_idx` to the old
`next_out_idx`. -/
@[simp] theorem swap_lastOutIdx (m : Machine) :
    (swap_ep0_out_descriptors m).lastOutIdx = m.nextOutIdx := rfl

/-- `swap_ep0_out_descriptors` advances `next_out_idx` modulo 2. -/
@[simp] theorem swap_nextOutIdx (m : Machine) :
    (swap_ep0_out_descriptors m).nextOutIdx = (m.nextOutIdx + 1) % 2 := rfl

/-- `handle_standard_device_to_host` never changes the OUT descriptor
indices. -/
theorem handle_standard_device_to_host_idx (m : Machine) (t : TableCase)
    (r : SetupRequest) (m' : Machine)
    (h : handle_standard_device_to_host m t r = some m') :
    m'.nextOutIdx = m.nextOutIdx ∧ m'.lastOutIdx = m.lastOutIdx := by
  unfold handle_standard_device_to_host at h
  cases hreq : r.request <;> simp [hreq] at h <;>
    (try (repeat' split at h)) <;>
    first
      | (rcases h with rfl; simp; done)
      | (obtain ⟨-, rfl⟩ := h; simp; done)
      | (obtain ⟨-, -, rfl⟩ := h; simp; done)
      | (simp_all; done)

/-- `handle_standard_interface_to_host` never changes the OUT descriptor
indices. -/
theorem handle_standard_interface_to_host_idx (m : Machine) (t : TableCase)
    (r : SetupRequest) (m' : Machine)
    (h : handle_standard_interface_to_host m t r = some m') :
    m'.nextOutIdx = m.nextOutIdx ∧ m'.lastOutIdx = m.lastOutIdx := by
  unfold handle_standard_interface_to_host at h
  cases hreq : r.request <;> simp [hreq] at h <;>
    (try (repeat' split at h)) <;>
    first
      | (rcases h with rfl; simp; done)
      | (obtain ⟨-, rfl⟩ := h; simp; done)
      | (obtain ⟨-, -, rfl⟩ := h; simp; done)
      | (simp_all; done)

/-- `handle_standard_no_data_phase` never changes the OUT descriptor
indices. -/
theorem handle_standard_no_data_phase_idx (m : Machine) (t : TableCase)
    (r : SetupRequest) (m' : Machine)
    (h : handle_standard_no_data_phase m t r = some m') :
    m'.nextOutIdx = m.nextOutIdx ∧ m'.lastOutIdx = m.lastOutIdx := by
  unfold handle_standard_no_data_phase at h
  cases hreq : r.request <;> simp [hreq, Machine.logWrite] at h <;>
    (try (repeat' split at h)) <;>
    first
      | (rcases h with rfl; simp; done)
      | (obtain ⟨-, rfl⟩ := h; simp; done)
      | (obtain ⟨-, -, rfl⟩ := h; simp; done)
      | (simp_all; done)

/-- `handle_class_host_to_interface` never changes the OUT descriptor
indices. -/
theorem handle_class_host_to_interface_idx (m : Machine) (t : TableCase)
    (r : SetupRequest) (m' : Machine)
    (h : handle_class_host_to_interface m t r = some m') :
    m'.nextOutIdx = m.nextOutIdx ∧ m'.lastOutIdx = m.lastOutIdx := by
  unfold handle_class_host_to_interface at h
  cases hreq : r.class_request <;> simp [hreq] at h <;>
    first
      | (rcases h with rfl; simp; done)
      | (simp_all; done)

/-- `handle_setup` never changes the OUT descriptor indices. -/
theorem handle_setup_idx (m : Machine) (t : TableCase) (m' : Machine)
    (h : handle_setup m t = some m') :
    m'.nextOutIdx = m.nextOutIdx ∧ m'.lastOutIdx = m.lastOutIdx := by
  unfold handle_setup at h
  repeat' split at h
  all_goals first
    | (exact handle_standard_device_to_host_idx _ _ _ _ h)
    | (exact handle_standard_interface_to_host_idx _ _ _ _ h)
    | (exact handle_standard_no_data_phase_idx _ _ _ _ h)
    | (exact handle_class_host_to_interface_idx _ _ _ _ h)
    | (simp [handle_standard_host_to_device] at h; done)
    | (simp [handle_standard_host_to_interface] at h; done)
    | (simp [handle_class_interface_to_host] at h; done)
    | (cases h; exact ⟨rfl, rfl⟩)
    | (simp only [Option.some.injEq] at h; cases h; exact ⟨rfl, rfl⟩)

set_option maxHeartbeats 2000000 in
/-- A successful `handle_endpoint0_events` swaps the OUT descriptor indices
exactly when the event is an OUT XferCompl, and leaves them unchanged
otherwise. -/
theorem handle_endpoint0_events_idx (m : Machine) (io ii : Bool)
    (eo ei : Nat) (m' : Machine)
    (h : handle_endpoint0_events m io ii eo ei = some m') :
    ((io ∧ eo &&& XferComplMsk ≠ 0) →
      m'.lastOutIdx = m.nextOutIdx ∧
        m'.nextOutIdx = (m.nextOutIdx + 1) % 2) ∧
    (¬(io ∧ eo &&& XferComplMsk ≠ 0) →
      m'.nextOutIdx = m.nextOutIdx ∧ m'.lastOutIdx = m.lastOutIdx) := by
  unfold handle_endpoint0_events at h
  simp only [] at h
  repeat' split at h
  all_goals first
    | exact Option.noConfusion h
    | (have hidx := handle_setup_idx _ _ _ h
       constructor <;> intro hc <;> simp_all)
    | (simp only [Option.some.injEq] at h; cases h
       constructor <;> intro hc <;> simp_all)
    | (cases h; constructor <;> intro hc <;> simp_all)

/-- Invariant carried through any successfully processed event sequence:
the OUT indices stay below 2, any XferCompl in the sequence forces them
apart, and once apart they stay apart. -/
theorem processEvents_idx_aux (es : List Ep0Event) :
    ∀ m m' : Machine, m.nextOutIdx < 2 → m.lastOutIdx < 2 →
    processEvents m es = some m' →
    m'.nextOutIdx < 2 ∧ m'.lastOutIdx < 2 ∧
      (es.any Ep0Event.isXferCompl = true →
        m'.nextOutIdx ≠ m'.lastOutIdx) ∧
      (m.nextOutIdx ≠ m.lastOutIdx → m'.nextOutIdx ≠ m'.lastOutIdx) := by
  induction es with
  | nil =>
    intro m m' hn hl h
    simp only [processEvents, Option.some.injEq] at h
    subst h
    exact ⟨hn, hl, by simp, fun hne => hne⟩
  | cons e es ih =>
    intro m m' hn hl h
    cases he : handle_endpoint0_events m e.interOut e.interIn e.epOutInts
        e.epInInts with
    | none => simp [processEvents, he] at h
    | some m2 =>
      simp only [processEvents, he] at h
      have hidx := handle_endpoint0_events_idx m e.interOut e.interIn
        e.epOutInts e.epInInts m2 he
      by_cases hsw : (e.interOut : Prop) ∧
          e.epOutInts &&& XferComplMsk ≠ 0
      · obtain ⟨ha, hb⟩ := hidx.1 hsw
        have hn2 : m2.nextOutIdx < 2 := by rw [hb]; omega
        have hl2 : m2.lastOutIdx < 2 := by rw [ha]; exact hn
        have hne2 : m2.nextOutIdx ≠ m2.lastOutIdx := by rw [ha, hb]; omega
        obtain ⟨g1, g2, g3, g4⟩ := ih m2 m' hn2 hl2 h
        exact ⟨g1, g2, fun _ => g4 hne2, fun _ => g4 hne2⟩
      · obtain ⟨ha, hb⟩ := hidx.2 hsw
        obtain ⟨g1, g2, g3, g4⟩ := ih m2 m' (ha ▸ hn) (hb ▸ hl) h
        refine ⟨g1, g2, ?_, ?_⟩
        · intro hany
          have hisx : e.isXferCompl = false := by
            by_cases hio : e.interOut = true
            · have hz : ¬ e.epOutInts &&& XferComplMsk ≠ 0 :=
                fun hbit => hsw ⟨hio, hbit⟩
              simp [Ep0Event.isXferCompl, hio, hz]
            · have hfo : e.interOut = false := by
                cases hbo : e.interOut with
                | false => rfl
                | true => exact absurd hbo hio
              simp [Ep0Event.isXferCompl, hfo]
          rw [List.any_cons, hisx] at hany
          simp only [Bool.false_or] at hany
          exact g3 hany
        · intro hne
          exact g4 (by rw [ha, hb]; exact hne)

/-- C3: from the post-init state (both OUT indices 0), after any
successfully processed sequence of endpoint-0 events, `next_out_idx` and
`last_out_idx` are always in the range 0..1, and once the sequence
contains an OUT XferCompl completion they are never equal again; moreover
every successfully handled OUT XferCompl event swaps them exactly as
`last = next; next = (next + 1) mod 2`. -/
theorem out_descriptor_index_invariant (m0 : Machine)
    (h0 : m0.nextOutIdx = 0) (h1 : m0.lastOutIdx = 0) :
    (∀ es m', processEvents m0 es = some m' →
      m'.nextOutIdx < 2 ∧ m'.lastOutIdx < 2 ∧
        (es.any Ep0Event.isXferCompl = true →
          m'.nextOutIdx ≠ m'.lastOutIdx)) ∧
    (∀ (m : Machine) (io ii : Bool) (eo ei : Nat) (m' : Machine),
      handle_endpoint0_events m io ii eo ei = some m' →
      io = true → eo &&& XferComplMsk ≠ 0 →
      m'.lastOutIdx = m.nextOutIdx ∧
        m'.nextOutIdx = (m.nextOutIdx + 1) % 2) := by
  constructor
  · intro es m' h
    have haux := processEvents_idx_aux es m0 m' (by omega) (by omega) h
    exact ⟨haux.1, haux.2.1, haux.2.2.1⟩
  · intro m io ii eo ei m' h hio hbit
    exact (handle_endpoint0_events_idx m io ii eo ei m' h).1 ⟨hio, hbit⟩

/-- Witness for C3: a case-D event keeps the indices in range, and an
XferCompl event on a ready machine swaps them to (1, 0). -/
theorem out_descriptor_index_invariant_witness :
    (testMachine 0 0).nextOutIdx = 0 ∧ (testMachine 0 0).lastOutIdx = 0 ∧
    (∃ m', processEvents (testMachine 0 0)
        [{ interOut := true, interIn := false, epOutInts := 32,
           epInInts := 0 }] = some m' ∧
      m'.nextOutIdx < 2 ∧ m'.lastOutIdx < 2) ∧
    (∃ m', handle_endpoint0_events testMachineReady true false 1 0
        = some m' ∧
      m'.lastOutIdx = testMachineReady.nextOutIdx ∧
      m'.nextOutIdx = (testMachineReady.nextOutIdx + 1) % 2) :=
  ⟨rfl, rfl,
   ⟨_, rfl, by
     have hinv := (out_descriptor_index_invariant (testMachine 0 0) rfl rfl).1
       [{ interOut := true, interIn := false, epOutInts := 32,
          epInInts := 0 }] _ rfl
     exact ⟨hinv.1, hinv.2.1⟩⟩,
   ⟨_, rfl,
    (out_descriptor_index_invariant (testMachine 0 0) rfl rfl).2
      testMachineReady true false 1 0 _ rfl rfl (by decide)⟩⟩
